import Mathlib

/-!
Verification of the Portfolio/CV HTTP API backend (`main.py`, `schemas.py`).

The embedding models JSON/BSON values, Python-dict documents as ordered
association lists, the pydantic payload schemas with their defaults, and each
route handler of `main.py` as a pure function from an optional database state
to an `Except`-style outcome, distinguishing explicit `HTTPException`s from
unhandled Python faults.
-/

set_option autoImplicit false

namespace Portfolio

/-- JSON/BSON values as stored and transported. `vOid` models `bson.ObjectId`,
kept as its 24-hex-character string rendering. -/
inductive Value where
  | vNull
  | vBool (b : Bool)
  | vInt (n : Int)
  | vStr (s : String)
  | vOid (hex : String)
  | vList (xs : List Value)
  | vDoc (fields : List (String × Value))

/-- A storage/transport document: a Python `dict` modelled as an ordered
association list with unique keys maintained by `Doc.set`. -/
abbrev Doc := List (String × Value)

/-- `d.get(k)` / `d[k]` lookup: first binding of the key, if any. -/
def Doc.get : Doc → String → Option Value
  | [], _ => none
  | (k', v) :: rest, k => if k' = k then some v else Doc.get rest k

/-- `d[k] = v`: overwrite the existing binding in place (Python dicts keep the
original insertion position on update), else append at the end. -/
def Doc.set : Doc → String → Value → Doc
  | [], k, v => [(k, v)]
  | (k', v') :: rest, k, v =>
      if k' = k then (k, v) :: rest else (k', v') :: Doc.set rest k v

/-- `d.pop(k)`: remove the binding of `k`. -/
def Doc.erase : Doc → String → Doc
  | [], _ => []
  | (k', v') :: rest, k =>
      if k' = k then Doc.erase rest k else (k', v') :: Doc.erase rest k

/-- The keys of a document, in order. -/
def Doc.keys (d : Doc) : List String := d.map Prod.fst

/-- Python truthiness of a value, as used by `if doc.get("_id"):`. -/
def truthy : Value → Bool
  | .vNull => false
  | .vBool b => b
  | .vInt n => n != 0
  | .vStr s => s != ""
  | .vOid _ => true
  | .vList xs => !xs.isEmpty
  | .vDoc fs => !fs.isEmpty

/-- Python `str()` rendering, as used by `str(doc.pop("_id"))`; an ObjectId
renders as its 24-hex-character string. -/
def valueStr : Value → String
  | .vNull => "None"
  | .vBool b => if b then "True" else "False"
  | .vInt n => toString n
  | .vStr s => s
  | .vOid h => h
  | .vList _ => "[...]"
  | .vDoc _ => "{...}"

/-- `serialize` from `main.py`: copy the document; if the `_id` value is
truthy, pop it and store its string rendering under `id`. -/
def serialize (doc : Doc) : Doc :=
  match doc.get "_id" with
  | some v => if truthy v then (doc.erase "_id").set "id" (.vStr (valueStr v)) else doc
  | none => doc

/-- A character `bson.ObjectId` accepts in a 24-character identifier string. -/
def isHexChar (c : Char) : Bool :=
  c.isDigit || ('a' ≤ c && c ≤ 'f') || ('A' ≤ c && c ≤ 'F')

/-- `bson.ObjectId(s)` succeeds exactly on 24-hex-character strings. -/
def isValidObjectId (s : String) : Bool :=
  s.length == 24 && s.toList.all isHexChar

/-- `to_object_id` from `main.py`, with `none` standing for the raised
`HTTPException(400, "Invalid ID format")`. -/
def to_object_id (s : String) : Option String :=
  if isValidObjectId s then some s else none

/-- How a request fails: an explicit `HTTPException(code, detail)`, or an
unhandled Python exception escaping the handler. -/
inductive Fault where
  | httpError (code : Nat) (detail : String)
  | pyFault (msg : String)

/-- The connected database state: the `cv` and `project` collections, each a
sequence of stored documents in insertion order. `Option DB` models the
module-level `db`, which is `None` when connection establishment failed. -/
structure DB where
  cv : List Doc
  project : List Doc

/-- `ExperienceItem` from `schemas.py`. -/
structure ExperienceItem where
  role : String
  company : String
  start_date : String
  end_date : Option String
  description : Option String

/-- `EducationItem` from `schemas.py`. -/
structure EducationItem where
  school : String
  degree : String
  start_year : Option String
  end_year : Option String

/-- `Cv` from `schemas.py`; `EmailStr`/`HttpUrl` values are kept as their
string form. -/
structure Cv where
  name : String
  title : String
  summary : Option String
  location : Option String
  email : Option String
  phone : Option String
  skills : List String
  experience : List ExperienceItem
  education : List EducationItem
  website : Option String
  avatar_url : Option String

/-- `Project` from `schemas.py`. -/
structure Project where
  title : String
  description : Option String
  tech_stack : List String
  url : Option String
  repo_url : Option String
  image_url : Option String
  featured : Bool

/-- `None`-defaulted optional string field as it appears in `model_dump()`. -/
def optStrVal : Option String → Value
  | none => .vNull
  | some s => .vStr s

/-- `model_dump()` of an `ExperienceItem`: every field, defaults included. -/
def ExperienceItem.dump (e : ExperienceItem) : Value :=
  .vDoc [("role", .vStr e.role), ("company", .vStr e.company),
         ("start_date", .vStr e.start_date), ("end_date", optStrVal e.end_date),
         ("description", optStrVal e.description)]

/-- `model_dump()` of an `EducationItem`: every field, defaults included. -/
def EducationItem.dump (e : EducationItem) : Value :=
  .vDoc [("school", .vStr e.school), ("degree", .vStr e.degree),
         ("start_year", optStrVal e.start_year), ("end_year", optStrVal e.end_year)]

/-- `payload.model_dump()` for a `Cv`: every schema field is emitted, with
defaults standing in for fields the request body did not supply. -/
def Cv.model_dump (c : Cv) : Doc :=
  [("name", .vStr c.name), ("title", .vStr c.title),
   ("summary", optStrVal c.summary), ("location", optStrVal c.location),
   ("email", optStrVal c.email), ("phone", optStrVal c.phone),
   ("skills", .vList (c.skills.map Value.vStr)),
   ("experience", .vList (c.experience.map ExperienceItem.dump)),
   ("education", .vList (c.education.map EducationItem.dump)),
   ("website", optStrVal c.website), ("avatar_url", optStrVal c.avatar_url)]

/-- `payload.model_dump()` for a `Project`: every schema field is emitted. -/
def Project.model_dump (p : Project) : Doc :=
  [("title", .vStr p.title), ("description", optStrVal p.description),
   ("tech_stack", .vList (p.tech_stack.map Value.vStr)),
   ("url", optStrVal p.url), ("repo_url", optStrVal p.repo_url),
   ("image_url", optStrVal p.image_url), ("featured", .vBool p.featured)]

/-- MongoDB `$set`: apply each binding of the update document to the stored
document in order, leaving other fields in place. -/
def applySet (base upd : Doc) : Doc :=
  upd.foldl (fun acc p => acc.set p.1 p.2) base

/-- Whether a stored document's `_id` equals the given ObjectId, as the
`{"_id": oid}` filter tests. -/
def idMatches (d : Doc) (oid : String) : Bool :=
  match d.get "_id" with
  | some (.vOid h) => h == oid
  | _ => false

/-- `collection.find_one({"_id": oid})`: first document whose `_id` equals the
identifier. -/
def findOneById (coll : List Doc) (oid : String) : Option Doc :=
  coll.find? (fun d => idMatches d oid)

/-- `collection.update_one({"_id": oid}, {"$set": upd})`: update the first
matching document; returns `matched_count` and the new collection. -/
def updateOneById (coll : List Doc) (oid : String) (upd : Doc) : Nat × List Doc :=
  match coll with
  | [] => (0, [])
  | d :: rest =>
      if idMatches d oid then (1, applySet d upd :: rest)
      else
        let r := updateOneById rest oid upd
        (r.1, d :: r.2)

/-- `collection.delete_one({"_id": oid})`: delete the first matching document;
returns `deleted_count` and the new collection. -/
def deleteOneById (coll : List Doc) (oid : String) : Nat × List Doc :=
  match coll with
  | [] => (0, [])
  | d :: rest =>
      if idMatches d oid then (1, rest)
      else
        let r := deleteOneById rest oid
        (r.1, d :: r.2)

/-- The `created_at` timestamp a CV read sorts on; documents are compared by
their integer creation timestamp. -/
def createdAtKey (d : Doc) : Int :=
  match d.get "created_at" with
  | some (.vInt n) => n
  | _ => 0

/-- Insert a document into a list kept sorted by `created_at` descending. -/
def insertDesc (d : Doc) : List Doc → List Doc
  | [] => [d]
  | x :: xs =>
      if createdAtKey x ≤ createdAtKey d then d :: x :: xs else x :: insertDesc d xs

/-- `find().sort("created_at", -1)`: the collection sorted by creation
timestamp descending. -/
def sortCreatedAtDesc (coll : List Doc) : List Doc :=
  coll.foldr insertDesc []

/-- `GET /api/cv` (`get_cv` in `main.py`): 500 when `db` is `None`; otherwise
the most recent CV serialized, or `null` when the collection is empty. -/
def get_cv (db : Option DB) : Except Fault (Option Doc) :=
  match db with
  | none => .error (.httpError 500 "Database not available")
  | some d =>
      let items := ((sortCreatedAtDesc d.cv).take 1).map serialize
      .ok items.head?

/-- `PUT /api/cv/{cv_id}` (`update_cv` in `main.py`): the `db is None` check
comes first, then identifier decoding, then `update_one` with a `$set` of the
full `model_dump`, a 404 on zero `matched_count`, and a serialized re-read. -/
def update_cv (db : Option DB) (cv_id : String) (payload : Cv) :
    Except Fault (Doc × DB) :=
  match db with
  | none => .error (.httpError 500 "Database not available")
  | some d =>
      match to_object_id cv_id with
      | none => .error (.httpError 400 "Invalid ID format")
      | some oid =>
          let r := updateOneById d.cv oid payload.model_dump
          if r.1 = 0 then .error (.httpError 404 "CV not found")
          else
            match findOneById r.2 oid with
            | some updated => .ok (serialize updated, { d with cv := r.2 })
            | none => .error (.pyFault "TypeError: dict() argument is None")

/-- `DELETE /api/cv/{cv_id}` (`delete_cv` in `main.py`). -/
def delete_cv (db : Option DB) (cv_id : String) : Except Fault (Doc × DB) :=
  match db with
  | none => .error (.httpError 500 "Database not available")
  | some d =>
      match to_object_id cv_id with
      | none => .error (.httpError 400 "Invalid ID format")
      | some oid =>
          let r := deleteOneById d.cv oid
          if r.1 = 0 then .error (.httpError 404 "CV not found")
          else .ok ([("status", .vStr "deleted"), ("id", .vStr cv_id)],
                    { d with cv := r.2 })

/-- Modelled from the spec: `get_documents` is defined in `database.py`, which
is not among the repository sources. Per §4.2, `find(collection, filter,
limit)` returns up to `limit` documents matching the filter (the empty filter
matches all) in storage-natural insertion order. -/
def get_documents (coll : List Doc) (limit : Int) : List Doc :=
  coll.take limit.toNat

/-- `GET /api/projects` (`list_projects` in `main.py`) with an explicit
`limit` value. -/
def list_projects (d : DB) (limit : Int) : List Doc :=
  (get_documents d.project limit).map serialize

/-- The route as called over HTTP: FastAPI substitutes the declared default
`limit: int = 50` when the query parameter is absent. -/
def list_projects_route (d : DB) (limitParam : Option Int) : List Doc :=
  list_projects d (limitParam.getD 50)

/-- Modelled from the spec: `create_document` is defined in `database.py`,
which is not among the repository sources. Per §4.2, insert serializes the
validated record to a storage document and returns the store-assigned
identifier; per §3/§4.2 the stored document carries the creation timestamp
that the CV read sorts on. `newOid` is the store-assigned identifier and `ts`
the creation timestamp. -/
def storedDocOf (dump : Doc) (newOid : String) (ts : Int) : Doc :=
  (dump.set "_id" (.vOid newOid)).set "created_at" (.vInt ts)

/-- `POST /api/projects` (`create_project` in `main.py`): insert through the
gateway, re-read by the returned identifier, serialize. A missing connection
surfaces as the gateway's StoreUnavailable error (spec §4.2 → HTTP 500). -/
def create_project (db : Option DB) (payload : Project) (newOid : String)
    (ts : Int) : Except Fault (Doc × DB) :=
  match db with
  | none => .error (.httpError 500 "Database not available")
  | some d =>
      let doc := storedDocOf payload.model_dump newOid ts
      let proj := d.project ++ [doc]
      match findOneById proj newOid with
      | some created => .ok (serialize created, { d with project := proj })
      | none => .error (.pyFault "TypeError: dict() argument is None")

/-- `POST /api/cv` (`create_cv` in `main.py`), same gateway flow. -/
def create_cv (db : Option DB) (payload : Cv) (newOid : String) (ts : Int) :
    Except Fault (Doc × DB) :=
  match db with
  | none => .error (.httpError 500 "Database not available")
  | some d =>
      let doc := storedDocOf payload.model_dump newOid ts
      let cvs := d.cv ++ [doc]
      match findOneById cvs newOid with
      | some created => .ok (serialize created, { d with cv := cvs })
      | none => .error (.pyFault "TypeError: dict() argument is None")

/-- `PUT /api/projects/{project_id}` (`update_project` in `main.py`): the
identifier is decoded first; there is no `db is None` guard, so a missing
connection makes `db.project` raise an unhandled `AttributeError`. -/
def update_project (db : Option DB) (project_id : String) (payload : Project) :
    Except Fault (Doc × DB) :=
  match to_object_id project_id with
  | none => .error (.httpError 400 "Invalid ID format")
  | some oid =>
      match db with
      | none => .error (.pyFault "AttributeError: NoneType has no attribute project")
      | some d =>
          let r := updateOneById d.project oid payload.model_dump
          if r.1 = 0 then .error (.httpError 404 "Project not found")
          else
            match findOneById r.2 oid with
            | some updated => .ok (serialize updated, { d with project := r.2 })
            | none => .error (.pyFault "TypeError: dict() argument is None")

/-- `DELETE /api/projects/{project_id}` (`delete_project` in `main.py`): same
shape as `update_project`, including the missing `db is None` guard. -/
def delete_project (db : Option DB) (project_id : String) :
    Except Fault (Doc × DB) :=
  match to_object_id project_id with
  | none => .error (.httpError 400 "Invalid ID format")
  | some oid =>
      match db with
      | none => .error (.pyFault "AttributeError: NoneType has no attribute project")
      | some d =>
          let r := deleteOneById d.project oid
          if r.1 = 0 then .error (.httpError 404 "Project not found")
          else .ok ([("status", .vStr "deleted"), ("id", .vStr project_id)],
                    { d with project := r.2 })

/-! ## Payload validation (`schemas.py` via pydantic)

The validators below embed what the declared pydantic models accept on a
parsed JSON object. The email and URL format checks performed by the
`EmailStr`/`HttpUrl` dependency types are modelled abstractly as executable
string predicates; the claims about validation quantify over the shape of the
input (absent / null / wrong type / failing format check), not over the exact
format grammar. -/

/-- Failure-propagating sequencing of validation steps. -/
def vbind {α β : Type} (e : Except String α) (f : α → Except String β) :
    Except String β :=
  match e with
  | .error msg => .error msg
  | .ok a => f a

/-- Whether validation accepted (no 422). -/
def accepts {α : Type} : Except String α → Bool
  | .ok _ => true
  | .error _ => false

/-- Models the email format check of the `EmailStr` dependency type. -/
def isValidEmail (s : String) : Bool :=
  match s.splitOn "@" with
  | [l, dom] => !l.isEmpty && !dom.isEmpty && dom.contains '.'
  | _ => false

/-- Models the URL format check of the `HttpUrl` dependency type. -/
def isValidUrl (s : String) : Bool :=
  (s.startsWith "http://" && s.length > 7) || (s.startsWith "https://" && s.length > 8)

/-- A required `str` field: present, non-null, a string. -/
def parseReqStr : Option Value → Except String String
  | some (.vStr s) => .ok s
  | _ => .error "field required as a string"

/-- An `Optional[str] = None` field: absent or null defaults to `None`. -/
def parseOptStr : Option Value → Except String (Option String)
  | none => .ok none
  | some .vNull => .ok none
  | some (.vStr s) => .ok (some s)
  | some _ => .error "field must be a string or null"

/-- An `Optional[EmailStr] = None` field. -/
def parseOptEmail : Option Value → Except String (Option String)
  | none => .ok none
  | some .vNull => .ok none
  | some (.vStr s) => if isValidEmail s then .ok (some s) else .error "invalid email"
  | some _ => .error "field must be an email string or null"

/-- An `Optional[HttpUrl] = None` field. -/
def parseOptUrl : Option Value → Except String (Option String)
  | none => .ok none
  | some .vNull => .ok none
  | some (.vStr s) => if isValidUrl s then .ok (some s) else .error "invalid url"
  | some _ => .error "field must be a URL string or null"

/-- ASCII lowercasing of one character, as `str.lower()` acts on the
boolean strings below. -/
def asciiLower : Char → Char
  | 'A' => 'a' | 'B' => 'b' | 'C' => 'c' | 'D' => 'd' | 'E' => 'e'
  | 'F' => 'f' | 'G' => 'g' | 'H' => 'h' | 'I' => 'i' | 'J' => 'j'
  | 'K' => 'k' | 'L' => 'l' | 'M' => 'm' | 'N' => 'n' | 'O' => 'o'
  | 'P' => 'p' | 'Q' => 'q' | 'R' => 'r' | 'S' => 's' | 'T' => 't'
  | 'U' => 'u' | 'V' => 'v' | 'W' => 'w' | 'X' => 'x' | 'Y' => 'y'
  | 'Z' => 'z'
  | c => c

/-- ASCII lowercasing of a string. -/
def lowerStr (s : String) : String := String.mk (s.toList.map asciiLower)

/-- The strings pydantic's lax mode coerces to `False`, compared
case-insensitively. -/
def boolStrFalse : List String := ["0", "off", "f", "false", "n", "no"]

/-- The strings pydantic's lax mode coerces to `True`, compared
case-insensitively. -/
def boolStrTrue : List String := ["1", "on", "t", "true", "y", "yes"]

/-- Models pydantic v2's lax coercion for a `bool` field: a boolean; the
numbers 0 and 1 (JSON numbers are modelled integrally, so this also covers
0.0/1.0); the accepted boolean strings, case-insensitive. Everything else —
including null — fails to coerce. -/
def boolCoerce : Value → Option Bool
  | .vBool b => some b
  | .vInt n => if n = 0 then some false else if n = 1 then some true else none
  | .vStr s =>
      if boolStrFalse.contains (lowerStr s) then some false
      else if boolStrTrue.contains (lowerStr s) then some true
      else none
  | _ => none

/-- A `bool = False` field: absent defaults to `False`; a present value goes
through the lax bool coercion. -/
def parseBoolDef : Option Value → Except String Bool
  | none => .ok false
  | some v =>
      match boolCoerce v with
      | some b => .ok b
      | none => .error "field must be a boolean"

/-- Element-wise validation of a JSON array, first failure propagated. -/
def parseElems {α : Type} (f : Value → Except String α) :
    List Value → Except String (List α)
  | [] => .ok []
  | v :: vs =>
      match f v with
      | .error e => .error e
      | .ok a =>
          match parseElems f vs with
          | .error e => .error e
          | .ok as => .ok (a :: as)

/-- A `List[str] = Field(default_factory=list)` field: absent defaults to the
empty list; null or a non-list is rejected. -/
def parseStrList (o : Option Value) : Except String (List String) :=
  match o with
  | none => .ok []
  | some (.vList xs) => parseElems (fun v => parseReqStr (some v)) xs
  | some _ => .error "field must be a list of strings"

/-- Validation of one `ExperienceItem` object. -/
def parseExpItem (v : Value) : Except String ExperienceItem :=
  match v with
  | .vDoc d =>
      vbind (parseReqStr (Doc.get d "role")) fun role =>
      vbind (parseReqStr (Doc.get d "company")) fun company =>
      vbind (parseReqStr (Doc.get d "start_date")) fun sd =>
      vbind (parseOptStr (Doc.get d "end_date")) fun ed =>
      vbind (parseOptStr (Doc.get d "description")) fun de =>
      .ok ⟨role, company, sd, ed, de⟩
  | _ => .error "experience item must be an object"

/-- Validation of one `EducationItem` object. -/
def parseEduItem (v : Value) : Except String EducationItem :=
  match v with
  | .vDoc d =>
      vbind (parseReqStr (Doc.get d "school")) fun school =>
      vbind (parseReqStr (Doc.get d "degree")) fun degree =>
      vbind (parseOptStr (Doc.get d "start_year")) fun sy =>
      vbind (parseOptStr (Doc.get d "end_year")) fun ey =>
      .ok ⟨school, degree, sy, ey⟩
  | _ => .error "education item must be an object"

/-- A `List[ExperienceItem]`-style field with `default_factory=list`. -/
def parseItemList {α : Type} (f : Value → Except String α) (o : Option Value) :
    Except String (List α) :=
  match o with
  | none => .ok []
  | some (.vList xs) => parseElems f xs
  | some _ => .error "field must be a list of objects"

/-- Validation of a `Cv` payload against the `schemas.py` declarations:
required `name`/`title`, optional scalar fields, defaulted lists with
element-wise validation. Unknown keys are never inspected (pydantic's default
is to ignore them). -/
def validateCv (d : Doc) : Except String Cv :=
  vbind (parseReqStr (d.get "name")) fun name =>
  vbind (parseReqStr (d.get "title")) fun title =>
  vbind (parseOptStr (d.get "summary")) fun summary =>
  vbind (parseOptStr (d.get "location")) fun location =>
  vbind (parseOptEmail (d.get "email")) fun email =>
  vbind (parseOptStr (d.get "phone")) fun phone =>
  vbind (parseStrList (d.get "skills")) fun skills =>
  vbind (parseItemList parseExpItem (d.get "experience")) fun expr =>
  vbind (parseItemList parseEduItem (d.get "education")) fun edu =>
  vbind (parseOptUrl (d.get "website")) fun website =>
  vbind (parseOptUrl (d.get "avatar_url")) fun avatar =>
  .ok ⟨name, title, summary, location, email, phone, skills, expr, edu,
       website, avatar⟩

/-- Validation of a `Project` payload against the `schemas.py` declarations. -/
def validateProject (d : Doc) : Except String Project :=
  vbind (parseReqStr (d.get "title")) fun title =>
  vbind (parseOptStr (Doc.get d "description")) fun descr =>
  vbind (parseStrList (d.get "tech_stack")) fun tech =>
  vbind (parseOptUrl (d.get "url")) fun url =>
  vbind (parseOptUrl (d.get "repo_url")) fun repo =>
  vbind (parseOptUrl (d.get "image_url")) fun image =>
  vbind (parseBoolDef (d.get "featured")) fun feat =>
  .ok ⟨title, descr, tech, url, repo, image, feat⟩

/-! ## Rejection conditions, stated from the claim's reading

Each flag below says, independently of the parsers, when a field value
violates its declared schema: a required field absent or null, or a present
field malformed for its type. -/

/-- A field that is absent from the payload or explicitly null. -/
def isAbsentOrNull : Option Value → Bool
  | none => true
  | some .vNull => true
  | _ => false

/-- A field that is present and non-null but not a string. -/
def notAStr : Option Value → Bool
  | none => false
  | some .vNull => false
  | some (.vStr _) => false
  | _ => true

/-- A present email field that is not a well-formed email string. -/
def badEmailField : Option Value → Bool
  | none => false
  | some .vNull => false
  | some (.vStr s) => !isValidEmail s
  | _ => true

/-- A present URL field that is not a well-formed URL string. -/
def badUrlField : Option Value → Bool
  | none => false
  | some .vNull => false
  | some (.vStr s) => !isValidUrl s
  | _ => true

/-- A present bool-field value that does not coerce to a boolean under the
validation library's lax rules. -/
def badBoolField : Option Value → Bool
  | none => false
  | some v => (boolCoerce v).isNone

/-- A list element that is not a string. -/
def badStrElem : Value → Bool
  | .vStr _ => false
  | _ => true

/-- A `List[str]` field that is present but null, not a list, or has a
non-string element. -/
def badStrList : Option Value → Bool
  | none => false
  | some (.vList xs) => xs.any badStrElem
  | some _ => true

/-- An experience entry violating the `ExperienceItem` schema: a required
field (`role`, `company`, `start_date`) absent or null, or any field
malformed, or the entry not an object at all. -/
def expItemBad : Value → Bool
  | .vDoc d =>
      (isAbsentOrNull (Doc.get d "role") || notAStr (Doc.get d "role")) ||
      (isAbsentOrNull (Doc.get d "company") || notAStr (Doc.get d "company")) ||
      (isAbsentOrNull (Doc.get d "start_date") || notAStr (Doc.get d "start_date")) ||
      notAStr (Doc.get d "end_date") || notAStr (Doc.get d "description")
  | _ => true

/-- An education entry violating the `EducationItem` schema. -/
def eduItemBad : Value → Bool
  | .vDoc d =>
      (isAbsentOrNull (Doc.get d "school") || notAStr (Doc.get d "school")) ||
      (isAbsentOrNull (Doc.get d "degree") || notAStr (Doc.get d "degree")) ||
      notAStr (Doc.get d "start_year") || notAStr (Doc.get d "end_year")
  | _ => true

/-- A list-of-objects field that is present but null, not a list, or has an
element violating the item schema. -/
def badItemList (bad : Value → Bool) : Option Value → Bool
  | none => false
  | some (.vList xs) => xs.any bad
  | some _ => true

/-- A CV payload is rejected exactly when a required field (`name`, `title`)
is absent or null, or any declared field is malformed. -/
def cvRejects (d : Doc) : Bool :=
  (isAbsentOrNull (d.get "name") || notAStr (d.get "name")) ||
  (isAbsentOrNull (d.get "title") || notAStr (d.get "title")) ||
  notAStr (d.get "summary") || notAStr (d.get "location") ||
  badEmailField (d.get "email") || notAStr (d.get "phone") ||
  badStrList (d.get "skills") ||
  badItemList expItemBad (d.get "experience") ||
  badItemList eduItemBad (d.get "education") ||
  badUrlField (d.get "website") || badUrlField (d.get "avatar_url")

/-- A Project payload is rejected exactly when the required `title` is absent
or null, or any declared field is malformed. -/
def projRejects (d : Doc) : Bool :=
  (isAbsentOrNull (d.get "title") || notAStr (d.get "title")) ||
  notAStr (d.get "description") || badStrList (d.get "tech_stack") ||
  badUrlField (d.get "url") || badUrlField (d.get "repo_url") ||
  badUrlField (d.get "image_url") || badBoolField (d.get "featured")

/-- The keys the `Cv` schema declares; validation never reads any other. -/
def cvSchemaKeys : List String :=
  ["name", "title", "summary", "location", "email", "phone", "skills",
   "experience", "education", "website", "avatar_url"]

/-- The keys the `Project` schema declares. -/
def projSchemaKeys : List String :=
  ["title", "description", "tech_stack", "url", "repo_url", "image_url",
   "featured"]

/-! ## Concrete inputs used by counterexamples and witnesses -/

/-- A well-formed 24-hex identifier. -/
def oidA : String := "aaaaaaaaaaaaaaaaaaaaaaaa"

/-- The validated payload of a request body supplying only `name` and
`title`; every other field carries its schema default. -/
def payloadAda : Cv :=
  ⟨"Ada", "Engineer", none, none, none, none, [], [], [], none, none⟩

/-- A stored CV document with a `summary` the request body does not supply. -/
def storedAda : Doc :=
  [("_id", .vOid oidA), ("name", .vStr "Old Name"),
   ("title", .vStr "Old Title"), ("summary", .vStr "Seasoned engineer"),
   ("created_at", .vInt 1)]

/-- A database holding exactly that CV. -/
def dbAda : DB := ⟨[storedAda], []⟩

/-- The validated payload of the body `{"title":"X"}`. -/
def projX : Project := ⟨"X", none, [], none, none, none, false⟩

/-- The stored document the gateway produces for `projX`. -/
def projStored (oid : String) (ts : Int) : Doc :=
  storedDocOf (Project.model_dump projX) oid ts

/-- Projection used to observe one field of a route outcome. -/
def summaryOfResult : Except Fault (Doc × DB) → Option Value
  | .ok r => Doc.get r.1 "summary"
  | .error _ => none

/-- A CV document created at timestamp 1. -/
def docEarly : Doc := [("_id", .vOid "111111111111111111111111"), ("created_at", .vInt 1)]

/-- A CV document created later, at timestamp 5. -/
def docLate : Doc := [("_id", .vOid "222222222222222222222222"), ("created_at", .vInt 5)]

/-- A valid CV body carrying an unknown key `hobby`. -/
def cvBodyExtra : Doc :=
  [("name", .vStr "Ada"), ("title", .vStr "Engineer"), ("hobby", .vStr "chess")]

/-- The same body without the unknown key. -/
def cvBodyClean : Doc := [("name", .vStr "Ada"), ("title", .vStr "Engineer")]

/-! ## Dictionary lemmas -/

theorem Doc.get_set_self (d : Doc) (k : String) (v : Value) :
    (Doc.set d k v).get k = some v := by
  induction d with
  | nil => simp [Doc.set, Doc.get]
  | cons p rest ih =>
      by_cases h : p.1 = k
      · simp [Doc.set, Doc.get, h]
      · simp [Doc.set, Doc.get, h, ih]

theorem Doc.get_set_ne (d : Doc) (k k' : String) (v : Value) (h : k ≠ k') :
    (Doc.set d k v).get k' = d.get k' := by
  induction d with
  | nil => simp [Doc.set, Doc.get, h]
  | cons p rest ih =>
      by_cases hp : p.1 = k
      · simp [Doc.set, Doc.get, hp, h]
      · simp [Doc.set, Doc.get, hp, ih]

theorem Doc.get_erase_self (d : Doc) (k : String) :
    (Doc.erase d k).get k = none := by
  induction d with
  | nil => simp [Doc.erase, Doc.get]
  | cons p rest ih =>
      by_cases hp : p.1 = k
      · simp [Doc.erase, hp, ih]
      · simp [Doc.erase, Doc.get, hp, ih]

theorem Doc.get_erase_ne (d : Doc) (k k' : String) (h : k ≠ k') :
    (Doc.erase d k).get k' = d.get k' := by
  induction d with
  | nil => simp [Doc.erase]
  | cons p rest ih =>
      by_cases hp : p.1 = k
      · have : p.1 ≠ k' := by rw [hp]; exact h
        simp [Doc.erase, Doc.get, hp, this, ih, h]
      · simp [Doc.erase, Doc.get, hp, ih]

theorem applySet_get_not_mem (base : Doc) (upd : Doc) (k : String)
    (h : k ∉ upd.keys) : (applySet base upd).get k = base.get k := by
  induction upd generalizing base with
  | nil => rfl
  | cons p rest ih =>
      have hk : p.1 ≠ k := by
        intro hc
        exact h (by simp [Doc.keys, hc])
      have hr : k ∉ Doc.keys rest := by
        intro hc
        exact h (by simp [Doc.keys] at hc ⊢; exact Or.inr hc)
      calc (applySet (base.set p.1 p.2) rest).get k
          = (base.set p.1 p.2).get k := ih (base.set p.1 p.2) hr
        _ = base.get k := Doc.get_set_ne base p.1 k p.2 hk

theorem applySet_get_mem (base : Doc) (upd : Doc) (k : String)
    (hnd : upd.keys.Nodup) (h : k ∈ upd.keys) :
    (applySet base upd).get k = upd.get k := by
  induction upd generalizing base with
  | nil => simp [Doc.keys] at h
  | cons p rest ih =>
      simp [Doc.keys] at h hnd
      by_cases hk : p.1 = k
      · have hr : k ∉ Doc.keys rest := by
          rw [← hk]; simpa [Doc.keys] using hnd.1
        calc (applySet (base.set p.1 p.2) rest).get k
            = (base.set p.1 p.2).get k := applySet_get_not_mem _ rest k hr
          _ = some p.2 := by rw [hk]; exact Doc.get_set_self base k p.2
          _ = Doc.get (p :: rest) k := by simp [Doc.get, hk]
      · have hmem : k ∈ Doc.keys rest := by
          rcases h with h | h
          · exact absurd h.symm hk
          · simpa [Doc.keys] using h
        calc (applySet (base.set p.1 p.2) rest).get k
            = Doc.get rest k := ih (base.set p.1 p.2) hnd.2 hmem
          _ = Doc.get (p :: rest) k := by simp [Doc.get, hk]

/-! ## C4 and C10: the document serializer -/

/-- Claim C4: `serialize` is idempotent — `serialize (serialize doc) =
serialize doc` for every document — and is the identity transform on any
document without an `_id` field. -/
theorem serialize_idempotent_identity (doc : Doc) :
    serialize (serialize doc) = serialize doc ∧
    (doc.get "_id" = none → serialize doc = doc) := by
  constructor
  · cases hid : doc.get "_id" with
    | none => simp [serialize, hid]
    | some v =>
        cases htr : truthy v with
        | false => simp [serialize, hid, htr]
        | true =>
            have hmid : ((doc.erase "_id").set "id" (.vStr (valueStr v))).get "_id" = none := by
              rw [Doc.get_set_ne _ "id" "_id" _ (by decide)]
              exact Doc.get_erase_self doc "_id"
            simp [serialize, hid, htr, hmid]
  · intro h
    simp [serialize, h]

/-- Witness for C4: evaluated on a document with no `_id` field, `serialize`
is the identity. -/
theorem serialize_idempotent_identity_witness :
    serialize [("name", .vStr "Ada")] = [("name", .vStr "Ada")] :=
  (serialize_idempotent_identity [("name", .vStr "Ada")]).2 rfl

/-- Claim C10: when the `_id` value is falsy (null, 0, false, the empty
string), `serialize` returns the document unchanged: `_id` stays in place and
no `id` key is added. -/
theorem serialize_falsy_id (doc : Doc) (v : Value)
    (hid : doc.get "_id" = some v) (hf : truthy v = false) :
    serialize doc = doc ∧ (serialize doc).get "_id" = some v := by
  have h : serialize doc = doc := by simp [serialize, hid, hf]
  exact ⟨h, by rw [h]; exact hid⟩

/-- Witness for C10: the four falsy `_id` values of the claim, each left
untouched by `serialize`. -/
theorem serialize_falsy_id_witness :
    (serialize [("_id", .vNull)] = [("_id", .vNull)] ∧
      (serialize [("_id", .vNull)]).get "_id" = some .vNull) ∧
    (serialize [("_id", .vInt 0)] = [("_id", .vInt 0)] ∧
      (serialize [("_id", .vInt 0)]).get "_id" = some (.vInt 0)) ∧
    (serialize [("_id", .vBool false)] = [("_id", .vBool false)] ∧
      (serialize [("_id", .vBool false)]).get "_id" = some (.vBool false)) ∧
    (serialize [("_id", .vStr "")] = [("_id", .vStr "")] ∧
      (serialize [("_id", .vStr "")]).get "_id" = some (.vStr "")) :=
  ⟨serialize_falsy_id _ .vNull rfl rfl,
   serialize_falsy_id _ (.vInt 0) rfl rfl,
   serialize_falsy_id _ (.vBool false) rfl rfl,
   serialize_falsy_id _ (.vStr "") rfl rfl⟩

/-! ## C1: what PUT actually overwrites -/

theorem cv_dump_keys (c : Cv) : (Cv.model_dump c).keys = cvSchemaKeys := rfl

theorem proj_dump_keys (q : Project) :
    (Project.model_dump q).keys = projSchemaKeys := rfl

/-- Counterexample to C1 as stated: the stored CV has `summary` "Seasoned
engineer"; a PUT whose body supplied only `name` and `title` comes back with
`summary` null — a field not supplied by the request was replaced. -/
theorem update_cv_overwrites_unsupplied_field :
    Doc.get storedAda "summary" = some (.vStr "Seasoned engineer") ∧
    summaryOfResult (update_cv (some dbAda) oidA payloadAda) = some .vNull := by
  exact ⟨rfl, rfl⟩

/-- Claim C1 (amended): PUT overwrites every schema field with the validated
payload's value (`model_dump` fills defaults for unsupplied fields); only
fields outside the schema dump — such as `_id` and `created_at` — are left
unchanged. -/
theorem update_replaces_exactly_dumped_fields (stored : Doc) (p : Cv)
    (q : Project) (k : String) :
    (k ∉ (Cv.model_dump p).keys →
      (applySet stored (Cv.model_dump p)).get k = stored.get k) ∧
    (k ∈ (Cv.model_dump p).keys →
      (applySet stored (Cv.model_dump p)).get k = (Cv.model_dump p).get k) ∧
    (k ∉ (Project.model_dump q).keys →
      (applySet stored (Project.model_dump q)).get k = stored.get k) ∧
    (k ∈ (Project.model_dump q).keys →
      (applySet stored (Project.model_dump q)).get k = (Project.model_dump q).get k) ∧
    (∀ (proj : List Doc) (oid : String), isValidObjectId oid = true →
      idMatches stored oid = true →
      update_cv (some ⟨[stored], proj⟩) oid p =
        .ok (serialize (applySet stored (Cv.model_dump p)),
             ⟨[applySet stored (Cv.model_dump p)], proj⟩)) ∧
    (∀ (cvs : List Doc) (oid : String), isValidObjectId oid = true →
      idMatches stored oid = true →
      update_project (some ⟨cvs, [stored]⟩) oid q =
        .ok (serialize (applySet stored (Project.model_dump q)),
             ⟨cvs, [applySet stored (Project.model_dump q)]⟩)) := by
  refine ⟨fun h => applySet_get_not_mem stored _ k h,
          fun h => applySet_get_mem stored _ k (by rw [cv_dump_keys]; decide) h,
          fun h => applySet_get_not_mem stored _ k h,
          fun h => applySet_get_mem stored _ k (by rw [proj_dump_keys]; decide) h,
          ?_, ?_⟩
  · intro proj oid hoid hmatch
    have hto : to_object_id oid = some oid := by simp [to_object_id, hoid]
    have hid : (applySet stored (Cv.model_dump p)).get "_id" = stored.get "_id" :=
      applySet_get_not_mem stored _ "_id" (by rw [cv_dump_keys]; decide)
    have hm : idMatches (applySet stored (Cv.model_dump p)) oid = true := by
      unfold idMatches at hmatch ⊢
      rw [hid]
      exact hmatch
    simp [update_cv, hto, updateOneById, hmatch, findOneById, List.find?, hm]
  · intro cvs oid hoid hmatch
    have hto : to_object_id oid = some oid := by simp [to_object_id, hoid]
    have hid : (applySet stored (Project.model_dump q)).get "_id" = stored.get "_id" :=
      applySet_get_not_mem stored _ "_id" (by rw [proj_dump_keys]; decide)
    have hm : idMatches (applySet stored (Project.model_dump q)) oid = true := by
      unfold idMatches at hmatch ⊢
      rw [hid]
      exact hmatch
    simp [update_project, hto, updateOneById, hmatch, findOneById, List.find?, hm]

/-- Witness for the amended C1: fields outside the dump (`created_at`) are
kept, dumped fields take the payload's value, and the route returns the
`$set`-rewritten document. -/
theorem update_replaces_exactly_dumped_fields_witness :
    ((applySet storedAda (Cv.model_dump payloadAda)).get "created_at" =
      storedAda.get "created_at") ∧
    ((applySet storedAda (Cv.model_dump payloadAda)).get "summary" =
      (Cv.model_dump payloadAda).get "summary") ∧
    update_cv (some ⟨[storedAda], []⟩) oidA payloadAda =
      .ok (serialize (applySet storedAda (Cv.model_dump payloadAda)),
           ⟨[applySet storedAda (Cv.model_dump payloadAda)], []⟩) :=
  ⟨(update_replaces_exactly_dumped_fields storedAda payloadAda projX
      "created_at").1 (by decide),
   (update_replaces_exactly_dumped_fields storedAda payloadAda projX
      "summary").2.1 (by decide),
   (update_replaces_exactly_dumped_fields storedAda payloadAda projX
      "summary").2.2.2.2.1 [] oidA rfl rfl⟩

/-! ## C2: malformed identifiers -/

/-- Counterexample to C2 as stated: with the store connection absent, PUT and
DELETE on `/api/cv/{id}` answer 500 for a malformed identifier, because
`update_cv`/`delete_cv` test `db is None` before decoding the id. -/
theorem malformed_id_can_get_500 :
    isValidObjectId "not-an-id" = false ∧
    update_cv none "not-an-id" payloadAda =
      .error (.httpError 500 "Database not available") ∧
    delete_cv none "not-an-id" =
      .error (.httpError 500 "Database not available") :=
  ⟨rfl, rfl, rfl⟩

/-- Claim C2 (amended): for every malformed identifier, the project routes
always answer 400, and the CV routes answer 400 whenever the store connection
is present; when it is absent the CV routes answer 500 before inspecting the
identifier. -/
theorem malformed_id_400 (s : String) (h : isValidObjectId s = false) :
    (∀ (d : DB) (p : Cv),
      update_cv (some d) s p = .error (.httpError 400 "Invalid ID format")) ∧
    (∀ (d : DB),
      delete_cv (some d) s = .error (.httpError 400 "Invalid ID format")) ∧
    (∀ (dbo : Option DB) (q : Project),
      update_project dbo s q = .error (.httpError 400 "Invalid ID format")) ∧
    (∀ (dbo : Option DB),
      delete_project dbo s = .error (.httpError 400 "Invalid ID format")) := by
  have hto : to_object_id s = none := by simp [to_object_id, h]
  exact ⟨fun d p => by simp [update_cv, hto],
         fun d => by simp [delete_cv, hto],
         fun dbo q => by simp [update_project, hto],
         fun dbo => by simp [delete_project, hto]⟩

/-- Witness for the amended C2 at the malformed identifier `"zz"`. -/
theorem malformed_id_400_witness :
    update_cv (some ⟨[], []⟩) "zz" payloadAda =
      .error (.httpError 400 "Invalid ID format") ∧
    delete_project none "zz" = .error (.httpError 400 "Invalid ID format") :=
  ⟨(malformed_id_400 "zz" rfl).1 ⟨[], []⟩ payloadAda,
   (malformed_id_400 "zz" rfl).2.2.2 none⟩

/-! ## C3: well-formed but absent identifiers -/

theorem updateOneById_nomatch (coll : List Doc) (oid : String) (upd : Doc)
    (h : ∀ doc ∈ coll, idMatches doc oid = false) :
    updateOneById coll oid upd = (0, coll) := by
  induction coll with
  | nil => rfl
  | cons d rest ih =>
      have hd := h d (by simp)
      have hr := ih (fun doc hm => h doc (by simp [hm]))
      simp [updateOneById, hd, hr]

theorem deleteOneById_nomatch (coll : List Doc) (oid : String)
    (h : ∀ doc ∈ coll, idMatches doc oid = false) :
    deleteOneById coll oid = (0, coll) := by
  induction coll with
  | nil => rfl
  | cons d rest ih =>
      have hd := h d (by simp)
      have hr := ih (fun doc hm => h doc (by simp [hm]))
      simp [deleteOneById, hd, hr]

/-- Claim C3: for a well-formed identifier matching no stored document, PUT
and DELETE on both collections answer 404 (zero `matched_count` or
`deleted_count` is translated to 404). -/
theorem absent_id_404 (d : DB) (s : String) (p : Cv) (q : Project)
    (hs : isValidObjectId s = true)
    (hcv : ∀ doc ∈ d.cv, idMatches doc s = false)
    (hpr : ∀ doc ∈ d.project, idMatches doc s = false) :
    update_cv (some d) s p = .error (.httpError 404 "CV not found") ∧
    delete_cv (some d) s = .error (.httpError 404 "CV not found") ∧
    update_project (some d) s q = .error (.httpError 404 "Project not found") ∧
    delete_project (some d) s = .error (.httpError 404 "Project not found") := by
  have hto : to_object_id s = some s := by simp [to_object_id, hs]
  refine ⟨?_, ?_, ?_, ?_⟩
  · simp [update_cv, hto, updateOneById_nomatch d.cv s p.model_dump hcv]
  · simp [delete_cv, hto, deleteOneById_nomatch d.cv s hcv]
  · simp [update_project, hto, updateOneById_nomatch d.project s q.model_dump hpr]
  · simp [delete_project, hto, deleteOneById_nomatch d.project s hpr]

/-- Witness for C3: an empty store and the well-formed identifier
`ffffffffffffffffffffffff`. -/
theorem absent_id_404_witness :
    update_cv (some ⟨[], []⟩) "ffffffffffffffffffffffff" payloadAda =
      .error (.httpError 404 "CV not found") ∧
    delete_cv (some ⟨[], []⟩) "ffffffffffffffffffffffff" =
      .error (.httpError 404 "CV not found") ∧
    update_project (some ⟨[], []⟩) "ffffffffffffffffffffffff" projX =
      .error (.httpError 404 "Project not found") ∧
    delete_project (some ⟨[], []⟩) "ffffffffffffffffffffffff" =
      .error (.httpError 404 "Project not found") :=
  absent_id_404 ⟨[], []⟩ "ffffffffffffffffffffffff" payloadAda projX rfl
    (by simp) (by simp)

/-! ## C5: behaviour when the store connection is absent -/

/-- Claim C5 is a code bug: with `db` absent, `update_project` and
`delete_project` never reach an explicit 500 — `db.project` raises an
unhandled `AttributeError` — while the CV routes and the gateway-backed
create do fail fast with an explicit 500. -/
theorem missing_db_project_routes_unhandled :
    update_project none oidA projX =
      .error (.pyFault "AttributeError: NoneType has no attribute project") ∧
    delete_project none oidA =
      .error (.pyFault "AttributeError: NoneType has no attribute project") ∧
    update_cv none oidA payloadAda =
      .error (.httpError 500 "Database not available") ∧
    delete_cv none oidA = .error (.httpError 500 "Database not available") ∧
    get_cv none = .error (.httpError 500 "Database not available") ∧
    create_project none projX oidA 0 =
      .error (.httpError 500 "Database not available") :=
  ⟨rfl, rfl, rfl, rfl, rfl, rfl⟩

/-! ## C6: the most-recent CV read -/

theorem sortCreatedAtDesc_head_max (l : List Doc) (hne : l ≠ []) :
    ∃ h t, sortCreatedAtDesc l = h :: t ∧ h ∈ l ∧
      ∀ x ∈ l, createdAtKey x ≤ createdAtKey h := by
  induction l with
  | nil => exact absurd rfl hne
  | cons a rest ih =>
      by_cases hrest : rest = []
      · subst hrest
        refine ⟨a, [], rfl, by simp, ?_⟩
        intro x hx
        simp at hx
        exact hx ▸ le_refl _
      · obtain ⟨h, t, hs, hmem, hmax⟩ := ih hrest
        have heq : sortCreatedAtDesc (a :: rest) = insertDesc a (h :: t) := by
          show insertDesc a (sortCreatedAtDesc rest) = insertDesc a (h :: t)
          rw [hs]
        by_cases hc : createdAtKey h ≤ createdAtKey a
        · refine ⟨a, h :: t, by rw [heq]; simp [insertDesc, hc], by simp, ?_⟩
          intro x hx
          rcases List.mem_cons.mp hx with hx | hx
          · exact hx ▸ le_refl _
          · exact le_trans (hmax x hx) hc
        · refine ⟨h, insertDesc a t, by rw [heq]; simp [insertDesc, hc],
                  List.mem_cons_of_mem a hmem, ?_⟩
          intro x hx
          rcases List.mem_cons.mp hx with hx | hx
          · exact hx ▸ le_of_lt (lt_of_not_le hc)
          · exact hmax x hx

/-- Claim C6: with the store available, `GET /api/cv` answers `null` on an
empty collection, and the serialized document with the strictly greatest
creation timestamp otherwise. -/
theorem get_cv_most_recent (d : DB) :
    (d.cv = [] → get_cv (some d) = .ok none) ∧
    (∀ doc ∈ d.cv,
      (∀ x ∈ d.cv, x ≠ doc → createdAtKey x < createdAtKey doc) →
      get_cv (some d) = .ok (some (serialize doc))) := by
  constructor
  · intro h
    simp [get_cv, h, sortCreatedAtDesc]
  · intro doc hmem hstrict
    obtain ⟨h, t, hs, hmem', hmax'⟩ :=
      sortCreatedAtDesc_head_max d.cv (List.ne_nil_of_mem hmem)
    have hhd : h = doc := by
      by_contra hne
      exact absurd (hmax' doc hmem) (not_le.mpr (hstrict h hmem' hne))
    rw [hhd] at hs
    simp [get_cv, hs]

/-- Witness for C6: the empty collection answers `null`; with two CVs at
timestamps 1 and 5 the later one is returned. -/
theorem get_cv_most_recent_witness :
    get_cv (some ⟨[], []⟩) = .ok none ∧
    get_cv (some ⟨[docEarly, docLate], []⟩) = .ok (some (serialize docLate)) :=
  ⟨(get_cv_most_recent ⟨[], []⟩).1 rfl,
   (get_cv_most_recent ⟨[docEarly, docLate], []⟩).2 docLate (by simp)
     (by
       intro x hx hne
       simp at hx
       rcases hx with hx | hx
       · rw [hx]; decide
       · exact absurd hx hne)⟩

/-! ## C8: the create/delete scenario on projects -/

/-- Claim C8: validating the body `{"title":"X"}` yields the defaulted
project; POST stores it and answers a body with `title` "X", an empty
`tech_stack`, `featured` false and the store-assigned 24-hex identifier under
`id`; DELETE with that id answers the deleted status, and a second DELETE
answers 404. -/
theorem project_create_delete_scenario (oid : String) (ts : Int)
    (h : isValidObjectId oid = true) :
    validateProject [("title", .vStr "X")] = .ok projX ∧
    isValidObjectId oid = true ∧
    create_project (some ⟨[], []⟩) projX oid ts =
      .ok (serialize (projStored oid ts), ⟨[], [projStored oid ts]⟩) ∧
    Doc.get (serialize (projStored oid ts)) "title" = some (.vStr "X") ∧
    Doc.get (serialize (projStored oid ts)) "tech_stack" = some (.vList []) ∧
    Doc.get (serialize (projStored oid ts)) "featured" = some (.vBool false) ∧
    Doc.get (serialize (projStored oid ts)) "id" = some (.vStr oid) ∧
    delete_project (some ⟨[], [projStored oid ts]⟩) oid =
      .ok ([("status", .vStr "deleted"), ("id", .vStr oid)], ⟨[], []⟩) ∧
    delete_project (some ⟨[], []⟩) oid =
      .error (.httpError 404 "Project not found") := by
  have h_id : Doc.get (projStored oid ts) "_id" = some (.vOid oid) := rfl
  have hm : idMatches (projStored oid ts) oid = true := by
    simp [idMatches, h_id]
  have hto : to_object_id oid = some oid := by simp [to_object_id, h]
  have hm2 : idMatches (storedDocOf projX.model_dump oid ts) oid = true := hm
  refine ⟨rfl, h, ?_, rfl, rfl, rfl, rfl, ?_, ?_⟩
  · simp [create_project, findOneById, List.find?, hm2, projStored]
  · simp [delete_project, hto, deleteOneById, hm]
  · simp [delete_project, hto, deleteOneById]

/-- Witness for C8 at a concrete store-assigned identifier and timestamp. -/
theorem project_create_delete_scenario_witness :
    validateProject [("title", .vStr "X")] = .ok projX ∧
    isValidObjectId "0123456789abcdef01234567" = true ∧
    create_project (some ⟨[], []⟩) projX "0123456789abcdef01234567" 7 =
      .ok (serialize (projStored "0123456789abcdef01234567" 7),
           ⟨[], [projStored "0123456789abcdef01234567" 7]⟩) ∧
    Doc.get (serialize (projStored "0123456789abcdef01234567" 7)) "title" =
      some (.vStr "X") ∧
    Doc.get (serialize (projStored "0123456789abcdef01234567" 7)) "tech_stack" =
      some (.vList []) ∧
    Doc.get (serialize (projStored "0123456789abcdef01234567" 7)) "featured" =
      some (.vBool false) ∧
    Doc.get (serialize (projStored "0123456789abcdef01234567" 7)) "id" =
      some (.vStr "0123456789abcdef01234567") ∧
    delete_project (some ⟨[], [projStored "0123456789abcdef01234567" 7]⟩)
        "0123456789abcdef01234567" =
      .ok ([("status", .vStr "deleted"),
            ("id", .vStr "0123456789abcdef01234567")], ⟨[], []⟩) ∧
    delete_project (some ⟨[], []⟩) "0123456789abcdef01234567" =
      .error (.httpError 404 "Project not found") :=
  project_create_delete_scenario "0123456789abcdef01234567" 7 rfl

/-! ## C9: the listing limit -/

/-- Claim C9: listing projects with `limit=N`, `N ≥ 0`, returns at most `N`
documents, and an absent limit parameter defaults to 50. -/
theorem list_projects_bounded (d : DB) (n : Int) (h : 0 ≤ n) :
    ((list_projects d n).length : Int) ≤ n ∧
    list_projects_route d none = list_projects d 50 := by
  refine ⟨?_, rfl⟩
  have hlen : (list_projects d n).length ≤ n.toNat := by
    simp only [list_projects, get_documents, List.length_map]
    exact List.length_take_le _ _
  omega

/-- Witness for C9: a one-project store listed with `limit=0` yields nothing,
and the absent parameter equals an explicit 50. -/
theorem list_projects_bounded_witness :
    ((list_projects ⟨[], [docEarly]⟩ 0).length : Int) ≤ 0 ∧
    list_projects_route ⟨[], [docEarly]⟩ none = list_projects ⟨[], [docEarly]⟩ 50 :=
  list_projects_bounded ⟨[], [docEarly]⟩ 0 (by decide)

/-! ## C7: what validation accepts -/

theorem accepts_vbind {α β : Type} (e : Except String α)
    (f : α → Except String β) :
    accepts (vbind e f) =
      match e with
      | .ok a => accepts (f a)
      | .error _ => false := by
  cases e <;> rfl

theorem flag_reqStr (o : Option Value) :
    (isAbsentOrNull o || notAStr o) = !accepts (parseReqStr o) := by
  cases o with
  | none => rfl
  | some v => cases v <;> rfl

theorem flag_optStr (o : Option Value) :
    notAStr o = !accepts (parseOptStr o) := by
  cases o with
  | none => rfl
  | some v => cases v <;> rfl

theorem flag_optEmail (o : Option Value) :
    badEmailField o = !accepts (parseOptEmail o) := by
  cases o with
  | none => rfl
  | some v =>
      cases v with
      | vStr s =>
          cases hv : isValidEmail s <;>
            simp [parseOptEmail, badEmailField, accepts, hv]
      | vNull => rfl
      | vBool b => rfl
      | vInt n => rfl
      | vOid h => rfl
      | vList xs => rfl
      | vDoc fs => rfl

theorem flag_optUrl (o : Option Value) :
    badUrlField o = !accepts (parseOptUrl o) := by
  cases o with
  | none => rfl
  | some v =>
      cases v with
      | vStr s =>
          cases hv : isValidUrl s <;>
            simp [parseOptUrl, badUrlField, accepts, hv]
      | vNull => rfl
      | vBool b => rfl
      | vInt n => rfl
      | vOid h => rfl
      | vList xs => rfl
      | vDoc fs => rfl

theorem flag_boolDef (o : Option Value) :
    badBoolField o = !accepts (parseBoolDef o) := by
  cases o with
  | none => rfl
  | some v =>
      cases hb : boolCoerce v <;>
        simp [parseBoolDef, badBoolField, accepts, hb]

theorem accepts_parseElems {α : Type} (f : Value → Except String α)
    (bad : Value → Bool) (hf : ∀ v, bad v = !accepts (f v)) (xs : List Value) :
    xs.any bad = !accepts (parseElems f xs) := by
  induction xs with
  | nil => rfl
  | cons v vs ih =>
      cases hv : f v with
      | error e =>
          have hbv : bad v = true := by rw [hf v, hv]; rfl
          simp [parseElems, hv, accepts, hbv]
      | ok a =>
          have hbv : bad v = false := by rw [hf v, hv]; rfl
          cases hrest : parseElems f vs with
          | error e =>
              have hva : vs.any bad = true := by rw [ih, hrest]; rfl
              simp [parseElems, hv, hrest, hbv, hva, accepts]
          | ok as =>
              have hva : vs.any bad = false := by rw [ih, hrest]; rfl
              simp [parseElems, hv, hrest, hbv, hva, accepts]

theorem flag_strList (o : Option Value) :
    badStrList o = !accepts (parseStrList o) := by
  cases o with
  | none => rfl
  | some v =>
      cases v with
      | vList xs =>
          have h := accepts_parseElems (fun v => parseReqStr (some v)) badStrElem
            (fun v => by cases v <;> rfl) xs
          simpa [badStrList, parseStrList, accepts] using h
      | vNull => rfl
      | vBool b => rfl
      | vInt n => rfl
      | vStr s => rfl
      | vOid h => rfl
      | vDoc fs => rfl

theorem reqStr_group_of_fail (o : Option Value)
    (h : accepts (parseReqStr o) = false) :
    (isAbsentOrNull o || notAStr o) = true := by rw [flag_reqStr, h]; rfl

theorem reqStr_group_of_ok (o : Option Value)
    (h : accepts (parseReqStr o) = true) :
    (isAbsentOrNull o || notAStr o) = false := by rw [flag_reqStr, h]; rfl

theorem notAStr_of_fail (o : Option Value)
    (h : accepts (parseOptStr o) = false) : notAStr o = true := by
  rw [flag_optStr, h]; rfl

theorem notAStr_of_ok (o : Option Value)
    (h : accepts (parseOptStr o) = true) : notAStr o = false := by
  rw [flag_optStr, h]; rfl

theorem badEmail_of_fail (o : Option Value)
    (h : accepts (parseOptEmail o) = false) : badEmailField o = true := by
  rw [flag_optEmail, h]; rfl

theorem badEmail_of_ok (o : Option Value)
    (h : accepts (parseOptEmail o) = true) : badEmailField o = false := by
  rw [flag_optEmail, h]; rfl

theorem badUrl_of_fail (o : Option Value)
    (h : accepts (parseOptUrl o) = false) : badUrlField o = true := by
  rw [flag_optUrl, h]; rfl

theorem badUrl_of_ok (o : Option Value)
    (h : accepts (parseOptUrl o) = true) : badUrlField o = false := by
  rw [flag_optUrl, h]; rfl

theorem badBool_of_fail (o : Option Value)
    (h : accepts (parseBoolDef o) = false) : badBoolField o = true := by
  rw [flag_boolDef, h]; rfl

theorem badBool_of_ok (o : Option Value)
    (h : accepts (parseBoolDef o) = true) : badBoolField o = false := by
  rw [flag_boolDef, h]; rfl

theorem badStrList_of_fail (o : Option Value)
    (h : accepts (parseStrList o) = false) : badStrList o = true := by
  rw [flag_strList, h]; rfl

theorem badStrList_of_ok (o : Option Value)
    (h : accepts (parseStrList o) = true) : badStrList o = false := by
  rw [flag_strList, h]; rfl

theorem flag_expItem (v : Value) : expItemBad v = !accepts (parseExpItem v) := by
  cases v with
  | vDoc d =>
      simp only [parseExpItem, accepts_vbind, expItemBad]
      repeat' split
      all_goals
        simp_all [accepts, reqStr_group_of_fail, reqStr_group_of_ok,
          notAStr_of_fail, notAStr_of_ok]
  | vNull => rfl
  | vBool b => rfl
  | vInt n => rfl
  | vStr s => rfl
  | vOid h => rfl
  | vList xs => rfl

theorem flag_eduItem (v : Value) : eduItemBad v = !accepts (parseEduItem v) := by
  cases v with
  | vDoc d =>
      simp only [parseEduItem, accepts_vbind, eduItemBad]
      repeat' split
      all_goals
        simp_all [accepts, reqStr_group_of_fail, reqStr_group_of_ok,
          notAStr_of_fail, notAStr_of_ok]
  | vNull => rfl
  | vBool b => rfl
  | vInt n => rfl
  | vStr s => rfl
  | vOid h => rfl
  | vList xs => rfl

theorem flag_itemList {α : Type} (f : Value → Except String α)
    (bad : Value → Bool) (hf : ∀ v, bad v = !accepts (f v)) (o : Option Value) :
    badItemList bad o = !accepts (parseItemList f o) := by
  cases o with
  | none => rfl
  | some v =>
      cases v with
      | vList xs =>
          have h := accepts_parseElems f bad hf xs
          simpa [badItemList, parseItemList, accepts] using h
      | vNull => rfl
      | vBool b => rfl
      | vInt n => rfl
      | vStr s => rfl
      | vOid h => rfl
      | vDoc fs => rfl

theorem expList_of_fail (o : Option Value)
    (h : accepts (parseItemList parseExpItem o) = false) :
    badItemList expItemBad o = true := by
  rw [flag_itemList parseExpItem expItemBad flag_expItem, h]; rfl

theorem expList_of_ok (o : Option Value)
    (h : accepts (parseItemList parseExpItem o) = true) :
    badItemList expItemBad o = false := by
  rw [flag_itemList parseExpItem expItemBad flag_expItem, h]; rfl

theorem eduList_of_fail (o : Option Value)
    (h : accepts (parseItemList parseEduItem o) = false) :
    badItemList eduItemBad o = true := by
  rw [flag_itemList parseEduItem eduItemBad flag_eduItem, h]; rfl

theorem eduList_of_ok (o : Option Value)
    (h : accepts (parseItemList parseEduItem o) = true) :
    badItemList eduItemBad o = false := by
  rw [flag_itemList parseEduItem eduItemBad flag_eduItem, h]; rfl

theorem accepts_validateCv (d : Doc) : accepts (validateCv d) = !cvRejects d := by
  simp only [validateCv, accepts_vbind]
  repeat' split
  all_goals
    simp_all [cvRejects, accepts, reqStr_group_of_fail, reqStr_group_of_ok,
      notAStr_of_fail, notAStr_of_ok, badEmail_of_fail, badEmail_of_ok,
      badUrl_of_fail, badUrl_of_ok, badStrList_of_fail, badStrList_of_ok,
      expList_of_fail, expList_of_ok, eduList_of_fail, eduList_of_ok]

theorem accepts_validateProject (d : Doc) :
    accepts (validateProject d) = !projRejects d := by
  simp only [validateProject, accepts_vbind]
  repeat' split
  all_goals
    simp_all [projRejects, accepts, reqStr_group_of_fail, reqStr_group_of_ok,
      notAStr_of_fail, notAStr_of_ok, badUrl_of_fail, badUrl_of_ok,
      badStrList_of_fail, badStrList_of_ok, badBool_of_fail, badBool_of_ok]

theorem validateCv_schema_keys_only (d₁ d₂ : Doc)
    (h : ∀ k ∈ cvSchemaKeys, Doc.get d₁ k = Doc.get d₂ k) :
    validateCv d₁ = validateCv d₂ := by
  have h1 := h "name" (by simp [cvSchemaKeys])
  have h2 := h "title" (by simp [cvSchemaKeys])
  have h3 := h "summary" (by simp [cvSchemaKeys])
  have h4 := h "location" (by simp [cvSchemaKeys])
  have h5 := h "email" (by simp [cvSchemaKeys])
  have h6 := h "phone" (by simp [cvSchemaKeys])
  have h7 := h "skills" (by simp [cvSchemaKeys])
  have h8 := h "experience" (by simp [cvSchemaKeys])
  have h9 := h "education" (by simp [cvSchemaKeys])
  have h10 := h "website" (by simp [cvSchemaKeys])
  have h11 := h "avatar_url" (by simp [cvSchemaKeys])
  simp only [validateCv, h1, h2, h3, h4, h5, h6, h7, h8, h9, h10, h11]

theorem validateProject_schema_keys_only (d₁ d₂ : Doc)
    (h : ∀ k ∈ projSchemaKeys, Doc.get d₁ k = Doc.get d₂ k) :
    validateProject d₁ = validateProject d₂ := by
  have h1 := h "title" (by simp [projSchemaKeys])
  have h2 := h "description" (by simp [projSchemaKeys])
  have h3 := h "tech_stack" (by simp [projSchemaKeys])
  have h4 := h "url" (by simp [projSchemaKeys])
  have h5 := h "repo_url" (by simp [projSchemaKeys])
  have h6 := h "image_url" (by simp [projSchemaKeys])
  have h7 := h "featured" (by simp [projSchemaKeys])
  simp only [validateProject, h1, h2, h3, h4, h5, h6, h7]

/-- Claim C7: a write payload is rejected (422) exactly when a required field
is absent or null or some declared field is malformed — for CVs and Projects,
including the nested item schemas — and validation reads only the schema's
keys, so unknown fields are ignored rather than rejected. -/
theorem validation_rejects_iff (d : Doc) :
    (accepts (validateCv d) = false ↔ cvRejects d = true) ∧
    (accepts (validateProject d) = false ↔ projRejects d = true) ∧
    (∀ d₂, (∀ k ∈ cvSchemaKeys, Doc.get d k = Doc.get d₂ k) →
      validateCv d = validateCv d₂) ∧
    (∀ d₂, (∀ k ∈ projSchemaKeys, Doc.get d k = Doc.get d₂ k) →
      validateProject d = validateProject d₂) := by
  refine ⟨?_, ?_, fun d₂ h => validateCv_schema_keys_only d d₂ h,
          fun d₂ h => validateProject_schema_keys_only d d₂ h⟩
  · rw [accepts_validateCv]; cases cvRejects d <;> simp
  · rw [accepts_validateProject]; cases projRejects d <;> simp

/-- Witness for C7: a valid CV body with an unknown `hobby` key validates the
same as the body without it, and the rejection equivalence holds on it. -/
theorem validation_rejects_iff_witness :
    (accepts (validateCv cvBodyExtra) = false ↔ cvRejects cvBodyExtra = true) ∧
    validateCv cvBodyExtra = validateCv cvBodyClean :=
  ⟨(validation_rejects_iff cvBodyExtra).1,
   (validation_rejects_iff cvBodyExtra).2.2.1 cvBodyClean (by
      intro k hk
      simp [cvSchemaKeys] at hk
      rcases hk with rfl | rfl | rfl | rfl | rfl | rfl | rfl | rfl | rfl | rfl | rfl <;> rfl)⟩

end Portfolio
